import Mathlib

/-!
Verification development for the project-memory policy-enforcement hooks
(`src/hooks/scripts/pre-tool-use.js` and `src/hooks/scripts/post-tool-use.js`).

The JavaScript hooks are shallowly embedded: all file I/O is modelled by a
`World` record holding the contents of the small state files the hooks read
and write (`.last-reminder`, `.last-memory-check`, `.task-tracker`) together
with the observable facts about the Knowledge Store files
(`research.jsonl` size, `decisions.jsonl` / `research.jsonl` mtimes).
Timestamps are natural numbers (`Date.now()` milliseconds, `stat.mtimeMs`).
The JavaScript regular expressions used by the intent classifier are
embedded by a small nondeterministic matcher over `List Char`
(`Matcher := List Char → List (List Char)` returns the possible rests after
a match at the current position); word boundaries, `\s*`, `\s+`, `.*`,
alternation and case-insensitive literals are the only constructs the
source patterns use.  JS `\s` / `\w` / `.` are interpreted over the ASCII
range, which covers every string the patterns are applied to.
-/

/-! ## String helpers (JS `String.prototype.includes`, regex literals) -/

/-- Character class `\w` of the source regexes: ASCII letters, digits, `_`. -/
def isWordChar (c : Char) : Bool :=
  c.isAlpha || c.isDigit || c = '_'

/-- Drop a literal (case-sensitive); `none` when the literal is not a prefix. -/
def dropLit : List Char → List Char → Option (List Char)
  | [], s => some s
  | _ :: _, [] => none
  | a :: as, b :: bs => if a = b then dropLit as bs else none

/-- Drop a literal, comparing case-insensitively (for `/.../i` patterns). -/
def dropLitCI : List Char → List Char → Option (List Char)
  | [], s => some s
  | _ :: _, [] => none
  | a :: as, b :: bs => if a.toLower = b.toLower then dropLitCI as bs else none

/-- JS `s.includes(needle)`: some suffix of `s` starts with `needle`. -/
def containsSeg (needle : List Char) : List Char → Bool
  | [] => (dropLit needle []).isSome
  | c :: rest => (dropLit needle (c :: rest)).isSome || containsSeg needle rest

/-- JS `s.includes(needle)` on `String`s. -/
def strIncludes (s needle : String) : Bool :=
  containsSeg needle.toList s.toList

/-! ## Nondeterministic matchers for the source's regex fragments -/

/-- A matcher consumes a prefix of the input and returns every possible rest. -/
abbrev Matcher := List Char → List (List Char)

/-- Case-sensitive literal fragment. -/
def litM (w : String) : Matcher := fun s =>
  match dropLit w.toList s with
  | some r => [r]
  | none => []

/-- Case-insensitive literal fragment. -/
def litCIM (w : String) : Matcher := fun s =>
  match dropLitCI w.toList s with
  | some r => [r]
  | none => []

/-- Sequencing of two fragments. -/
def seqM (m1 m2 : Matcher) : Matcher := fun s => (m1 s).flatMap m2

/-- Alternation `(a|b|...)` over a list of fragments. -/
def altM (ms : List Matcher) : Matcher := fun s => ms.flatMap (fun m => m s)

/-- Fragment `\s*`: skip zero or more whitespace characters. -/
def wsStar : Matcher
  | [] => [[]]
  | c :: rest => (c :: rest) :: (if c.isWhitespace then wsStar rest else [])

/-- Fragment `\s+`: skip one or more whitespace characters. -/
def wsPlus : Matcher
  | [] => []
  | c :: rest => if c.isWhitespace then wsStar rest else []

/-- Fragment `\s`: exactly one whitespace character. -/
def wsOne : Matcher
  | [] => []
  | c :: rest => if c.isWhitespace then [rest] else []

/-- Fragment `.*`: any characters except line terminators. -/
def dotStar : Matcher
  | [] => [[]]
  | c :: rest =>
    (c :: rest) :: (if c = '\n' || c = '\r' then [] else dotStar rest)

/-- Trailing `\b` after a word character: the rest must not start with one. -/
def endWordB : Matcher
  | [] => [[]]
  | c :: rest => if isWordChar c then [] else [c :: rest]

/-- Search for `\b` followed by the fragment, at any position.  `atB` records
whether the current position is preceded by start-of-string or a non-word
character (the fragments all begin with a word character, so this is the
JS `\b` condition). -/
def searchBAux (m : Matcher) : Bool → List Char → Bool
  | atB, [] => atB && !(m []).isEmpty
  | atB, c :: rest =>
    (atB && !(m (c :: rest)).isEmpty) || searchBAux m (!isWordChar c) rest

/-- JS `re.test(s)` for a pattern of shape `\b<fragment>` (unanchored). -/
def reTestB (m : Matcher) (s : String) : Bool :=
  searchBAux m true s.toList

/-- JS `re.test(s)` for a pattern of shape `^\s*<fragment>`. -/
def reTestAnchored (m : Matcher) (s : String) : Bool :=
  !((seqM wsStar m) s.toList).isEmpty

/-- Pattern `/\bword/i`. -/
def kw (w : String) : String → Bool := reTestB (litCIM w)

/-- Pattern `/\bword\b/i`. -/
def kwWB (w : String) : String → Bool :=
  reTestB (seqM (litCIM w) endWordB)

/-- Pattern `/\bhead\s+(alt1|alt2|...)\b/i`. -/
def kwWsAltWB (head : String) (alts : List String) : String → Bool :=
  reTestB (seqM (litCIM head) (seqM wsPlus (seqM (altM (alts.map litCIM)) endWordB)))

/-- Pattern `/\bhead\s+(alt1|alt2|...)/i` (no trailing boundary). -/
def kwWsAlt (head : String) (alts : List String) : String → Bool :=
  reTestB (seqM (litCIM head) (seqM wsPlus (altM (alts.map litCIM))))

/-- Pattern `/\bword\s/` (case-sensitive command signature). -/
def cmdWs (w : String) : String → Bool :=
  reTestB (seqM (litM w) wsOne)

/-- Pattern `/\bhead\s+tailword\b/` (case-sensitive). -/
def cmdWsWordWB (head tailWord : String) : String → Bool :=
  reTestB (seqM (litM head) (seqM wsPlus (seqM (litM tailWord) endWordB)))

/-- Pattern `/\bhead\s+(alt1|...)\b/` (case-sensitive). -/
def cmdWsAltWB (head : String) (alts : List String) : String → Bool :=
  reTestB (seqM (litM head) (seqM wsPlus (seqM (altM (alts.map litM)) endWordB)))

/-- Pattern `/^\s*word\b/`. -/
def anchWB (w : String) : String → Bool :=
  reTestAnchored (seqM (litM w) endWordB)

/-- Pattern `/^\s*head\s+(alt1|...)\b/`. -/
def anchWsAltWB (head : String) (alts : List String) : String → Bool :=
  reTestAnchored (seqM (litM head) (seqM wsPlus (seqM (altM (alts.map litM)) endWordB)))

/-! ## Intent classifier (`post-tool-use.js`, mirrored in pre-tool-use.js) -/

/-- The `EXPLORATION_KEYWORDS` regex list of `post-tool-use.js`, one embedded
test function per source pattern, in source order. -/
def EXPLORATION_KEYWORDS : List (String → Bool) :=
  [ kw "search", kw "investigat", kw "explor", kw "examin",
    kw "inspect", kw "understand", kw "analyz", kw "research",
    kw "debug",
    reTestB (seqM (litCIM "trac") (seqM (altM [litCIM "e", litCIM "ing"]) endWordB)),
    reTestB (seqM (litCIM "look") (seqM wsStar (seqM (altM [litCIM "for", litCIM "at", litCIM "into", litCIM "up"]) endWordB))),
    kwWsAltWB "find" ["out", "where", "how", "what", "why"], kw "identif",
    kw "determin",
    reTestB (seqM (litCIM "figure") (seqM wsPlus (litCIM "out"))),
    kw "brows", kw "scan",
    kwWsAlt "check" ["if", "whether", "what", "how", "where", "content"],
    kwWsAlt "what" ["is", "are", "does"], kwWsAlt "how" ["does", "do", "is", "to"],
    kwWsAlt "where" ["is", "are", "does"], kwWsAlt "list" ["all", "the", "every", "content"],
    kwWsAlt "show" ["the", "all", "me", "current"], kwWB "read", kw "view" ]

/-- The `OPERATIONAL_KEYWORDS` regex list of `post-tool-use.js`. -/
def OPERATIONAL_KEYWORDS : List (String → Bool) :=
  [ kw "creat", kw "build", kw "rebuild", kw "install", kwWB "run",
    kw "start", kw "deploy", kw "push", kw "commit",
    kw "compil", kw "test", kw "serv", kw "clean",
    kw "delet", kw "mov", kw "copy", kw "renam",
    reTestB (seqM (litCIM "set") (seqM wsStar (litCIM "up"))),
    kw "configur", kw "initializ", kw "generat",
    kw "writ", kw "mak", kw "updat", kw "fix",
    kw "apply", kw "execut", kw "launch", kw "restart",
    kwWB "stop", kw "kill", kw "format", kw "lint",
    kw "propagate",
    reTestB (seqM (litCIM "copy") (seqM dotStar (seqM (litCIM "to") endWordB))),
    kw "sync" ]

/-- The `EXPLORATION_PATTERNS` command-signature regex list (case-sensitive). -/
def EXPLORATION_PATTERNS : List (String → Bool) :=
  [ cmdWs "curl", cmdWs "wget",
    cmdWsWordWB "git" "log", cmdWsWordWB "git" "show", cmdWsWordWB "git" "blame",
    cmdWs "grep", cmdWs "rg", cmdWs "ag", cmdWs "ack", cmdWs "locate",
    cmdWsAltWB "npm" ["info", "search", "view"],
    cmdWsAltWB "pip" ["show", "search"] ]

/-- The `SAFE_OPERATIONAL_PATTERNS` safelist of `post-tool-use.js`
(anchored, case-sensitive), in source order. -/
def SAFE_OPERATIONAL_PATTERNS : List (String → Bool) :=
  [ anchWB "mkdir", anchWB "touch", anchWB "cp", anchWB "mv", anchWB "rm",
    anchWB "chmod", anchWB "chown", anchWB "ln", anchWB "echo", anchWB "printf",
    reTestAnchored (seqM (litM "cat") (seqM wsStar (litM ">"))),
    anchWsAltWB "npm" ["install", "ci", "run", "start", "build", "test"],
    anchWB "npx", anchWB "node",
    anchWsAltWB "git" ["add", "commit", "push", "pull", "checkout", "switch",
      "branch", "merge", "rebase", "stash", "tag", "fetch", "clone", "init"],
    reTestAnchored (seqM (litM "pip") (seqM wsPlus (seqM (litM "install") endWordB))),
    anchWsAltWB "docker" ["build", "run", "push", "pull", "start", "stop", "rm", "exec"],
    anchWB "cd", anchWB "pwd", anchWB "ls" ]

/-- Number of exploration-keyword patterns matching the description. -/
def explorationScore (desc : String) : Nat :=
  (EXPLORATION_KEYWORDS.filter (fun p => p desc)).length

/-- Number of operational-keyword patterns matching the description. -/
def operationalScore (desc : String) : Nat :=
  (OPERATIONAL_KEYWORDS.filter (fun p => p desc)).length

/-- JS `SAFE_OPERATIONAL_PATTERNS.some(p => p.test(cmd))`. -/
def matchesSafeOperational (cmd : String) : Bool :=
  SAFE_OPERATIONAL_PATTERNS.any (fun p => p cmd)

/-- JS `EXPLORATION_PATTERNS.some(p => p.test(cmd))`. -/
def matchesExplorationPattern (cmd : String) : Bool :=
  EXPLORATION_PATTERNS.any (fun p => p cmd)

/-- `isExploratoryBash` of `post-tool-use.js`, on the command string and the
description string of `tool_input` (both default to `""` in the source). -/
def isExploratoryBash (cmd desc : String) : Bool :=
  if matchesSafeOperational cmd = true then false
  else if desc.length > 5 then
    if explorationScore desc > operationalScore desc then true
    else if operationalScore desc > explorationScore desc then false
    else matchesExplorationPattern cmd
  else matchesExplorationPattern cmd

/-! ## Data model and persisted state -/

/-- Escalation state persisted in `.ai-memory/.last-reminder`.  Field names
follow the source (`ts` is the last-reminder timestamp, `lastSaveTs` the last
Knowledge-Store save already accounted for). -/
structure EscState where
  ts : Nat
  reminderCount : Nat
  lastSaveTs : Nat
deriving Repr, DecidableEq

/-- Task tracker persisted in `.ai-memory/.task-tracker`. -/
structure TaskTracker where
  created : Nat
  completed : Nat
  toolCallsSinceSummary : Nat
deriving Repr, DecidableEq

/-- Contents of the `.last-reminder` file as the `readState` code
distinguishes them: missing file, blank file, a JSON object (whose three
numeric fields may each be present or absent, JS `parsed.f || 0`), a bare
numeric timestamp (legacy format), or anything else. -/
inductive ReminderFile
  | absent
  | blank
  | jsonObj (ts reminderCount lastSaveTs : Option Nat)
  | bareNum (n : Nat)
  | malformed
deriving Repr, DecidableEq

/-- The file-system facts the two hooks read and write, plus the clock.
`projectRootFound` abstracts `resolveProjectRoot` succeeding;
`memCheckFile` is the numeric content of `.last-memory-check` (`none` when
absent or unreadable); `researchSize` is the byte size of `research.jsonl`
(`none` when the file is missing); the two mtimes are `none` when the
corresponding Knowledge-Store file does not exist. -/
structure World where
  projectRootFound : Bool
  reminderFile : ReminderFile
  memCheckFile : Option Nat
  trackerFile : Option TaskTracker
  researchSize : Option Nat
  decisionsMtime : Option Nat
  researchMtime : Option Nat
  now : Nat
deriving Repr, DecidableEq

/-- Flattened hook input (`tool_name`, `tool_input.command`,
`tool_input.description`, `tool_input.subagent_type`, `tool_input.status`;
the string fields default to `""` as in the source). -/
structure HookInput where
  toolName : String
  command : String
  description : String
  subagentType : String
  status : String
deriving Repr, DecidableEq

/-- `ESCALATION_THRESHOLD` (both hook scripts). -/
def ESCALATION_THRESHOLD : Nat := 2

/-- `THROTTLE_MS` of `post-tool-use.js`: 3 minutes. -/
def THROTTLE_MS : Nat := 3 * 60 * 1000

/-- `SUMMARY_CHECKPOINT_CALLS` of `post-tool-use.js`. -/
def SUMMARY_CHECKPOINT_CALLS : Nat := 20

/-- `MEMORY_CHECK_TTL_MS` of `pre-tool-use.js`: 10 minutes. -/
def MEMORY_CHECK_TTL_MS : Nat := 10 * 60 * 1000

/-- `MATCHED_TOOLS` (both hook scripts). -/
def MATCHED_TOOLS : List String := ["Bash", "WebFetch", "WebSearch", "Task"]

/-- `IMMEDIATE_SAVE_TOOLS` of `post-tool-use.js`. -/
def IMMEDIATE_SAVE_TOOLS : List String := ["Task", "WebSearch", "WebFetch"]

/-- `TASK_TOOLS` of `post-tool-use.js`. -/
def TASK_TOOLS : List String := ["TaskCreate", "TaskUpdate"]

/-- `EXPLORATION_SUBAGENTS` (both hook scripts). -/
def EXPLORATION_SUBAGENTS : List String :=
  ["Explore", "Plan", "general-purpose", "feature-dev:code-explorer", "feature-dev:code-architect"]

/-- `isSaveCall` of `pre-tool-use.js`. -/
def isSaveCall (inp : HookInput) : Bool :=
  strIncludes inp.command "save-decision" ||
  strIncludes inp.command "save-research" ||
  strIncludes inp.command "check-memory"

/-- `isSelfCall` of `post-tool-use.js`. -/
def isSelfCall (inp : HookInput) : Bool :=
  strIncludes inp.command "save-decision" ||
  strIncludes inp.command "save-research" ||
  strIncludes inp.command "check-memory" ||
  strIncludes inp.command "session-summary"

/-- `isExploratoryTask` of `post-tool-use.js`. -/
def isExploratoryTask (inp : HookInput) : Bool :=
  decide (inp.subagentType ∈ EXPLORATION_SUBAGENTS)

/-- `wasMemoryChecked` of `pre-tool-use.js`: the sentinel exists and its
timestamp is within `MEMORY_CHECK_TTL_MS` of now. -/
def wasMemoryChecked (w : World) : Bool :=
  match w.memCheckFile with
  | some ts => w.now - ts < MEMORY_CHECK_TTL_MS
  | none => false

/-- `hasResearch` of `pre-tool-use.js`: `research.jsonl` exists with size
greater than 50 bytes. -/
def hasResearch (w : World) : Bool :=
  match w.researchSize with
  | some sz => sz > 50
  | none => false

/-- `readState` (identical in both hook scripts): decode the
`.last-reminder` file, defaulting on absence, blankness or corruption, with
the legacy bare-timestamp branch. -/
def readState : ReminderFile → EscState
  | .absent => ⟨0, 0, 0⟩
  | .blank => ⟨0, 0, 0⟩
  | .jsonObj ts reminderCount lastSaveTs => ⟨ts.getD 0, reminderCount.getD 0, lastSaveTs.getD 0⟩
  | .bareNum n => ⟨n, 0, 0⟩
  | .malformed => ⟨0, 0, 0⟩

/-- Serialization of an `EscState` as `JSON.stringify` produces it: a JSON
object with all three fields present. -/
def stateToJson (s : EscState) : ReminderFile :=
  .jsonObj (some s.ts) (some s.reminderCount) (some s.lastSaveTs)

/-- `writeState` of `post-tool-use.js`: overwrite `.last-reminder`. -/
def writeState (w : World) (s : EscState) : World :=
  { w with reminderFile := stateToJson s }

/-- `getLastSaveTs` (identical in both hook scripts): the larger mtime of
`decisions.jsonl` and `research.jsonl`, `0` for a missing file. -/
def getLastSaveTs (w : World) : Nat :=
  max (w.decisionsMtime.getD 0) (w.researchMtime.getD 0)

/-- `readTaskTracker` of `post-tool-use.js` (defaults on absence/corruption). -/
def readTaskTracker (w : World) : TaskTracker :=
  w.trackerFile.getD ⟨0, 0, 0⟩

/-- `writeTaskTracker` of `post-tool-use.js`. -/
def writeTaskTracker (w : World) (t : TaskTracker) : World :=
  { w with trackerFile := some t }

/-- The `fs.unlinkSync(.last-memory-check)` performed on the immediate-save
path of `post-tool-use.js`. -/
def clearMemCheck (w : World) : World :=
  { w with memCheckFile := none }

/-! ## Decision engine -/

/-- Reasons carried by a pre-check deny decision (the source emits a
human-readable message; only its kind matters here).  `consultMemoryTask`
and `consultMemoryWeb` are the GATE 1 / GATE 2 "check memory before
exploring / web searching" instructions; `escalation` is the GATE 3
ignored-reminders denial, carrying the reminder count it cites. -/
inductive DenyReason
  | consultMemoryTask
  | consultMemoryWeb
  | escalation (count : Nat)
deriving Repr, DecidableEq

/-- Pre-check verdict: `allow` is the empty output object; `deny` carries a
`permissionDecision: "deny"` with a reason. -/
inductive PreDecision
  | allow
  | deny (reason : DenyReason)
deriving Repr, DecidableEq

/-- Whether a pre-check verdict is a deny whose reason instructs consulting
memory first (GATE 1 or GATE 2 message). -/
def isConsultMemoryDeny : PreDecision → Bool
  | .deny .consultMemoryTask => true
  | .deny .consultMemoryWeb => true
  | _ => false

/-- Post-check output: empty object, non-blocking `systemMessage` advisory,
or the four `decision: "block"` messages the source distinguishes. -/
inductive PostOutput
  | empty
  | advisory
  | blockTaskComplete
  | blockCheckpoint
  | blockImmediate
  | blockEscalated (count : Nat)
deriving Repr, DecidableEq

/-- Task-lifecycle events as the post-check distinguishes them from
`tool_name` / `tool_input.status`. -/
inductive TaskEvent
  | created
  | completed
  | deleted
  | otherUpdate
deriving Repr, DecidableEq

/-- Tracker update for one task-lifecycle event (`post-tool-use.js` main):
`created += 1`, `completed += 1`, or `created = Math.max(0, created - 1)`
(truncated subtraction). -/
def applyTaskEvent (t : TaskTracker) : TaskEvent → TaskTracker
  | .created => { t with created := t.created + 1 }
  | .completed => { t with completed := t.completed + 1 }
  | .deleted => { t with created := t.created - 1 }
  | .otherUpdate => t

/-- The invariant claimed for the task tracker. -/
def taskInvariant (t : TaskTracker) : Prop :=
  t.completed ≤ t.created

instance (t : TaskTracker) : Decidable (taskInvariant t) :=
  inferInstanceAs (Decidable (t.completed ≤ t.created))

/-- The save-observation reset shared by both post-check paths: if a strictly
newer save is observed AND a save was already on record (`lastSaveTs > 0`),
clear the reminder count. -/
def resetIfNewSave (s : EscState) (cst : Nat) : EscState :=
  if cst > s.lastSaveTs ∧ s.lastSaveTs > 0 then { s with reminderCount := 0 } else s

/-- The gradual-escalation transition of `post-tool-use.js` (reset check,
then increment the count, stamp `ts := now`, advance `lastSaveTs`). -/
def gradualStep (s : EscState) (now cst : Nat) : EscState :=
  let s1 := resetIfNewSave s cst
  { s1 with reminderCount := s1.reminderCount + 1, ts := now,
            lastSaveTs := max s1.lastSaveTs cst }

/-- The immediate-save transition of `post-tool-use.js` (reset check, then
force the count to `ESCALATION_THRESHOLD + 1`). -/
def immediateStep (s : EscState) (now cst : Nat) : EscState :=
  let s1 := resetIfNewSave s cst
  { s1 with reminderCount := ESCALATION_THRESHOLD + 1, ts := now,
            lastSaveTs := max s1.lastSaveTs cst }

/-- `main` of `pre-tool-use.js`: the pre-check.  Branches in source order:
non-matched tool, save/check-memory Bash call, unresolved project root,
GATE 1 (exploration `Task` subagent with existing research and no recent
memory check), GATE 2 (`WebSearch`/`WebFetch` likewise), GATE 3 (escalation
count over the threshold with no newer save).  The returned `World` is the
state of the files after the run; the source performs no write to any of
the modelled files on any path. -/
def preMain (inp : HookInput) (w : World) : PreDecision × World :=
  if inp.toolName ∉ MATCHED_TOOLS then (.allow, w)
  else if inp.toolName = "Bash" ∧ isSaveCall inp = true then (.allow, w)
  else if w.projectRootFound = false then (.allow, w)
  else if inp.toolName = "Task" ∧ inp.subagentType ∈ EXPLORATION_SUBAGENTS
          ∧ hasResearch w = true ∧ wasMemoryChecked w = false then
    (.deny .consultMemoryTask, w)
  else if (inp.toolName = "WebSearch" ∨ inp.toolName = "WebFetch")
          ∧ hasResearch w = true ∧ wasMemoryChecked w = false then
    (.deny .consultMemoryWeb, w)
  else
    let state := readState w.reminderFile
    if state.reminderCount ≤ ESCALATION_THRESHOLD then (.allow, w)
    else if getLastSaveTs w > state.lastSaveTs then (.allow, w)
    else (.deny (.escalation state.reminderCount), w)

/-- The tail of `main` of `post-tool-use.js` for a matched, non-self call
once the periodic checkpoint has not fired: the operational-intent skips
for `Bash` and `Task`, the immediate-save block (which also clears the
memory-check sentinel), then the throttled gradual escalation ending in an
advisory or an escalated block.  `w1` already contains the incremented
tool-call counter. -/
def postAfterCheckpoint (inp : HookInput) (w1 : World) : PostOutput × World :=
  if inp.toolName = "Bash" ∧ isExploratoryBash inp.command inp.description = false then
    (.empty, w1)
  else if inp.toolName = "Task" ∧ isExploratoryTask inp = false then (.empty, w1)
  else
    let state := readState w1.reminderFile
    if inp.toolName ∈ IMMEDIATE_SAVE_TOOLS then
      let s1 := immediateStep state w1.now (getLastSaveTs w1)
      (.blockImmediate, clearMemCheck (writeState w1 s1))
    else if w1.now - state.ts < THROTTLE_MS then (.empty, w1)
    else
      let s1 := gradualStep state w1.now (getLastSaveTs w1)
      if s1.reminderCount ≤ ESCALATION_THRESHOLD then (.advisory, writeState w1 s1)
      else (.blockEscalated s1.reminderCount, writeState w1 s1)

/-- `main` of `post-tool-use.js`: the post-check.  Branches in source order:
task-lifecycle tracking for `TaskCreate`/`TaskUpdate` (which then fall out
through the matched-tools filter, except the all-tasks-complete block),
non-matched tool, unresolved project root, self-call skip, periodic summary
checkpoint (increment `toolCallsSinceSummary`, block at the threshold),
then `postAfterCheckpoint`. -/
def postMain (inp : HookInput) (w : World) : PostOutput × World :=
  if inp.toolName ∈ TASK_TOOLS then
    if w.projectRootFound = true then
      let tracker := readTaskTracker w
      if inp.toolName = "TaskCreate" then
        (.empty, writeTaskTracker w (applyTaskEvent tracker .created))
      else if inp.status = "completed" then
        let t := applyTaskEvent tracker .completed
        if t.completed ≥ t.created ∧ t.created > 0 then
          (.blockTaskComplete, writeTaskTracker w t)
        else (.empty, writeTaskTracker w t)
      else if inp.status = "deleted" then
        (.empty, writeTaskTracker w (applyTaskEvent tracker .deleted))
      else (.empty, w)
    else (.empty, w)
  else if inp.toolName ∉ MATCHED_TOOLS then (.empty, w)
  else if w.projectRootFound = false then (.empty, w)
  else if inp.toolName = "Bash" ∧ isSelfCall inp = true then (.empty, w)
  else
    let t1 := { readTaskTracker w with
                toolCallsSinceSummary := (readTaskTracker w).toolCallsSinceSummary + 1 }
    let w1 := writeTaskTracker w t1
    if t1.toolCallsSinceSummary ≥ SUMMARY_CHECKPOINT_CALLS then (.blockCheckpoint, w1)
    else postAfterCheckpoint inp w1

/-- Every branch of `postAfterCheckpoint` leaves the task tracker file
untouched: the continuation writes only the reminder state and the
memory-check sentinel. -/
theorem postAfterCheckpoint_trackerFile (inp : HookInput) (w1 : World) :
    (postAfterCheckpoint inp w1).2.trackerFile = w1.trackerFile := by
  simp only [postAfterCheckpoint]
  split_ifs <;> rfl

/-! ## Claim C1: Calm-state pre-check behaviour -/

/-- Claim C1 (counterexample): a `WebFetch` invocation whose persisted
escalation state is Calm (`reminderCount = 0 ≤ ESCALATION_THRESHOLD`) is
nevertheless denied by the pre-check when the Knowledge Store is non-empty
and the consultation sentinel is absent — the claim's "regardless of the
Knowledge Store's contents or the consultation sentinel's presence" fails. -/
theorem precheck_calm_webfetch_denied_cex :
    ("WebFetch" : String) ∈ MATCHED_TOOLS ∧
    (readState (World.reminderFile
        ⟨true, .absent, none, some ⟨0, 0, 0⟩, some 1000, none, some 200, 500000⟩)).reminderCount
      ≤ ESCALATION_THRESHOLD ∧
    (preMain ⟨"WebFetch", "", "", "", ""⟩
        ⟨true, .absent, none, some ⟨0, 0, 0⟩, some 1000, none, some 200, 500000⟩).1
      = PreDecision.deny .consultMemoryWeb := by
  decide

/-- Claim C1 (amended): for every gated tool invocation whose persisted
escalation state has `reminderCount ≤ ESCALATION_THRESHOLD`, the pre-check
returns allow, provided the memory-consultation gate does not fire (the
Knowledge Store is empty or memory was consulted recently). -/
theorem precheck_calm_allows_when_consultation_gate_passes
    (inp : HookInput) (w : World)
    (hm : inp.toolName ∈ MATCHED_TOOLS)
    (hc : (readState w.reminderFile).reminderCount ≤ ESCALATION_THRESHOLD)
    (hg : hasResearch w = false ∨ wasMemoryChecked w = true) :
    (preMain inp w).1 = PreDecision.allow := by
  simp only [preMain]
  split_ifs with h1 h2 h3 h4
  · rfl
  · rfl
  · rcases hg with hg | hg <;> simp [hg] at h3
  · rcases hg with hg | hg <;> simp [hg] at h4
  · rfl

/-- Claim C1 (witness): the amended theorem applied to a concrete calm-state
Bash invocation against an empty Knowledge Store. -/
theorem precheck_calm_allows_when_consultation_gate_passes_witness :
    ("Bash" : String) ∈ MATCHED_TOOLS ∧
    (readState (World.reminderFile
        ⟨true, .absent, none, some ⟨0, 0, 0⟩, none, none, none, 0⟩)).reminderCount
      ≤ ESCALATION_THRESHOLD ∧
    hasResearch ⟨true, .absent, none, some ⟨0, 0, 0⟩, none, none, none, 0⟩ = false ∧
    (preMain ⟨"Bash", "grep x", "", "", ""⟩
        ⟨true, .absent, none, some ⟨0, 0, 0⟩, none, none, none, 0⟩).1 = PreDecision.allow :=
  ⟨by decide, by decide, by decide,
    precheck_calm_allows_when_consultation_gate_passes _ _ (by decide) (by decide)
      (Or.inl (by decide))⟩

/-! ## Claim C2: the consultation gate and Shell calls -/

/-- Claim C2 (counterexample): a Shell (Bash) call classified Exploratory,
with the Knowledge Store non-empty and the consultation sentinel absent, is
ALLOWED by the pre-check — the pre-check's consultation gates cover only
exploration `Task` subagents (GATE 1) and `WebSearch`/`WebFetch` (GATE 2),
never Bash. -/
theorem precheck_exploratory_bash_not_gated_cex :
    isExploratoryBash "grep -r auth src" "search for auth patterns" = true ∧
    hasResearch ⟨true, .absent, none, some ⟨0, 0, 0⟩, some 1000, none, some 200, 500000⟩ = true ∧
    wasMemoryChecked ⟨true, .absent, none, some ⟨0, 0, 0⟩, some 1000, none, some 200, 500000⟩ = false ∧
    (preMain ⟨"Bash", "grep -r auth src", "search for auth patterns", "", ""⟩
        ⟨true, .absent, none, some ⟨0, 0, 0⟩, some 1000, none, some 200, 500000⟩).1
      = PreDecision.allow := by
  decide

/-- Claim C2 (amended): when the Knowledge Store is non-empty and the
consultation sentinel is absent or stale, the pre-check denies with a
consult-memory-first reason exactly for `WebSearch`/`WebFetch` invocations
and for `Task` invocations with an exploration-flavored subagent kind —
not for Shell invocations, which carry no consultation gate in the
pre-check. -/
theorem precheck_consultation_gate_denies_web_and_exploration_task
    (inp : HookInput) (w : World)
    (hr : w.projectRootFound = true)
    (hs : hasResearch w = true)
    (hm : wasMemoryChecked w = false)
    (ht : inp.toolName = "WebSearch" ∨ inp.toolName = "WebFetch" ∨
          (inp.toolName = "Task" ∧ inp.subagentType ∈ EXPLORATION_SUBAGENTS)) :
    isConsultMemoryDeny (preMain inp w).1 = true := by
  rcases ht with ht | ht | ht
  · simp [preMain, MATCHED_TOOLS, ht, hr, hs, hm, isConsultMemoryDeny]
  · simp [preMain, MATCHED_TOOLS, ht, hr, hs, hm, isConsultMemoryDeny]
  · simp [preMain, MATCHED_TOOLS, ht.1, ht.2, hr, hs, hm, isConsultMemoryDeny]

/-- Claim C2 (witness): the amended theorem applied to a concrete
`WebSearch` invocation with non-empty store and absent sentinel. -/
theorem precheck_consultation_gate_denies_web_and_exploration_task_witness :
    hasResearch ⟨true, .absent, none, some ⟨0, 0, 0⟩, some 1000, none, some 200, 500000⟩ = true ∧
    wasMemoryChecked ⟨true, .absent, none, some ⟨0, 0, 0⟩, some 1000, none, some 200, 500000⟩ = false ∧
    isConsultMemoryDeny
      (preMain ⟨"WebSearch", "", "", "", ""⟩
        ⟨true, .absent, none, some ⟨0, 0, 0⟩, some 1000, none, some 200, 500000⟩).1 = true :=
  ⟨by decide, by decide,
    precheck_consultation_gate_denies_web_and_exploration_task _ _ (by decide) (by decide)
      (by decide) (Or.inl rfl)⟩

/-! ## Claim C3: first post-check firing of an immediate-save tool -/

/-- Claim C3: for every immediate-save tool kind (`WebFetch`, `WebSearch`,
exploratory `Task`), its first post-check firing in a fresh session (task
tracker reset, escalation state cleared) with no prior save (no
Knowledge-Store file exists) produces the blocking decision and leaves the
persisted escalation state with
`reminderCount = ESCALATION_THRESHOLD + 1`, i.e. Escalated. -/
theorem first_immediate_save_post_check_blocks_and_escalates
    (inp : HookInput) (w : World)
    (ht : inp.toolName ∈ IMMEDIATE_SAVE_TOOLS)
    (hex : inp.toolName = "Task" → isExploratoryTask inp = true)
    (hr : w.projectRootFound = true)
    (htr : w.trackerFile = some ⟨0, 0, 0⟩)
    (hrem : w.reminderFile = .absent)
    (hd : w.decisionsMtime = none)
    (hrt : w.researchMtime = none) :
    (postMain inp w).1 = PostOutput.blockImmediate ∧
    readState (postMain inp w).2.reminderFile = ⟨w.now, ESCALATION_THRESHOLD + 1, 0⟩ ∧
    ESCALATION_THRESHOLD + 1 > ESCALATION_THRESHOLD := by
  simp only [IMMEDIATE_SAVE_TOOLS, List.mem_cons, List.not_mem_nil, or_false] at ht
  rcases ht with ht | ht | ht
  · have hx := hex ht
    simp [postMain, postAfterCheckpoint, TASK_TOOLS, MATCHED_TOOLS, IMMEDIATE_SAVE_TOOLS, ht,
      hx, hr, htr, hrem, hd, hrt, readTaskTracker, writeTaskTracker, SUMMARY_CHECKPOINT_CALLS,
      readState, getLastSaveTs, immediateStep, resetIfNewSave, clearMemCheck, writeState,
      stateToJson, ESCALATION_THRESHOLD]
  · simp [postMain, postAfterCheckpoint, TASK_TOOLS, MATCHED_TOOLS, IMMEDIATE_SAVE_TOOLS, ht,
      hr, htr, hrem, hd, hrt, readTaskTracker, writeTaskTracker, SUMMARY_CHECKPOINT_CALLS,
      readState, getLastSaveTs, immediateStep, resetIfNewSave, clearMemCheck, writeState,
      stateToJson, ESCALATION_THRESHOLD]
  · simp [postMain, postAfterCheckpoint, TASK_TOOLS, MATCHED_TOOLS, IMMEDIATE_SAVE_TOOLS, ht,
      hr, htr, hrem, hd, hrt, readTaskTracker, writeTaskTracker, SUMMARY_CHECKPOINT_CALLS,
      readState, getLastSaveTs, immediateStep, resetIfNewSave, clearMemCheck, writeState,
      stateToJson, ESCALATION_THRESHOLD]

/-- Claim C3 (witness): the theorem applied to a concrete first `WebFetch`
call of a fresh session. -/
theorem first_immediate_save_post_check_blocks_and_escalates_witness :
    ("WebFetch" : String) ∈ IMMEDIATE_SAVE_TOOLS ∧
    (postMain ⟨"WebFetch", "", "", "", ""⟩
        ⟨true, .absent, none, some ⟨0, 0, 0⟩, none, none, none, 42⟩).1
      = PostOutput.blockImmediate ∧
    readState (postMain ⟨"WebFetch", "", "", "", ""⟩
        ⟨true, .absent, none, some ⟨0, 0, 0⟩, none, none, none, 42⟩).2.reminderFile
      = ⟨42, 3, 0⟩ := by
  have h := first_immediate_save_post_check_blocks_and_escalates
    ⟨"WebFetch", "", "", "", ""⟩ ⟨true, .absent, none, some ⟨0, 0, 0⟩, none, none, none, 42⟩
    (by decide) (by decide) rfl rfl rfl rfl rfl
  exact ⟨by decide, h.1, h.2.1⟩

/-! ## Claim C4: reset on observing a newer save -/

/-- Claim C4 (counterexample): at a post-check evaluation with persisted
`lastSaveTs = 0` and an observed save timestamp `5 > 0`, the claim demands
that `reminderCount` reset to 0 and `lastKnownSaveAt` advance; instead the
source's reset guard `state.lastSaveTs > 0` skips the reset and the gradual
path increments the count from 3 to 4. -/
theorem post_reset_skipped_when_lastSaveTs_zero_cex :
    getLastSaveTs ⟨true, .jsonObj (some 0) (some 3) (some 0), none, some ⟨0, 0, 0⟩,
        none, none, some 5, 1000000⟩
      > (readState (ReminderFile.jsonObj (some 0) (some 3) (some 0))).lastSaveTs ∧
    readState (postMain ⟨"Bash", "grep foo", "", "", ""⟩
        ⟨true, .jsonObj (some 0) (some 3) (some 0), none, some ⟨0, 0, 0⟩,
          none, none, some 5, 1000000⟩).2.reminderFile
      = ⟨1000000, 4, 5⟩ ∧
    (readState (postMain ⟨"Bash", "grep foo", "", "", ""⟩
        ⟨true, .jsonObj (some 0) (some 3) (some 0), none, some ⟨0, 0, 0⟩,
          none, none, some 5, 1000000⟩).2.reminderFile).reminderCount ≠ 0 := by
  decide

/-- Claim C4 (amended): at a post-check gradual-escalation evaluation, if
the observed save timestamp strictly exceeds the persisted `lastSaveTs`
AND `lastSaveTs > 0`, then `reminderCount` resets to 0 before the per-call
increment (the resulting count is 1) and `lastSaveTs` advances to the
observed save time; re-evaluating with the same save timestamp does not
re-trigger the reset (the count then increments normally to 2).  When
`lastSaveTs = 0` no reset occurs (counterexample above), and the pre-check
never mutates the persisted state (claim C10's theorem). -/
theorem gradual_step_resets_on_newer_save_idempotent
    (s : EscState) (now now2 cst : Nat)
    (h1 : s.lastSaveTs > 0) (h2 : cst > s.lastSaveTs) :
    (gradualStep s now cst).reminderCount = 1 ∧
    (gradualStep s now cst).lastSaveTs = cst ∧
    (gradualStep (gradualStep s now cst) now2 cst).reminderCount = 2 := by
  have hc : cst > s.lastSaveTs ∧ s.lastSaveTs > 0 := ⟨h2, h1⟩
  simp [gradualStep, resetIfNewSave, hc, Nat.max_eq_right (Nat.le_of_lt h2)]

/-- Claim C4 (witness): the amended theorem at a concrete state with a
previously recorded save (`lastSaveTs = 7`) and a newer save at 9. -/
theorem gradual_step_resets_on_newer_save_idempotent_witness :
    (⟨0, 0, 7⟩ : EscState).lastSaveTs > 0 ∧
    (9 : Nat) > (⟨0, 0, 7⟩ : EscState).lastSaveTs ∧
    (gradualStep ⟨0, 0, 7⟩ 100 9).reminderCount = 1 ∧
    (gradualStep ⟨0, 0, 7⟩ 100 9).lastSaveTs = 9 ∧
    (gradualStep (gradualStep ⟨0, 0, 7⟩ 100 9) 200 9).reminderCount = 2 := by
  have h := gradual_step_resets_on_newer_save_idempotent ⟨0, 0, 7⟩ 100 200 9
    (by decide) (by decide)
  exact ⟨by decide, by decide, h.1, h.2.1, h.2.2⟩

/-! ## Claim C5: operational Shell calls under escalation -/

/-- Claim C5 (counterexample): a Shell command classified Operational by the
intent classifier (`mkdir foo`, safelisted) is DENIED by the pre-check when
the persisted state is Escalated (`reminderCount = 3 > threshold`) with no
newer save — the pre-check performs no intent classification, so
operational Shell calls are not exempt from the escalation denial. -/
theorem precheck_denies_operational_bash_when_escalated_cex :
    isExploratoryBash "mkdir foo" "" = false ∧
    (readState (ReminderFile.jsonObj (some 0) (some 3) (some 5))).reminderCount
      > ESCALATION_THRESHOLD ∧
    (preMain ⟨"Bash", "mkdir foo", "", "", ""⟩
        ⟨true, .jsonObj (some 0) (some 3) (some 5), none, some ⟨0, 0, 0⟩,
          none, some 5, none, 500000⟩).1
      = PreDecision.deny (.escalation 3) := by
  decide

/-- Claim C5 (amended): the pre-check does not consult the intent
classifier: in Escalated state with no intervening save, EVERY non-save
Shell invocation is denied with the escalation reason, including those the
classifier marks Operational (only save/check-memory commands are exempt). -/
theorem precheck_escalated_denies_all_nonsave_bash
    (inp : HookInput) (w : World)
    (ht : inp.toolName = "Bash")
    (hsave : isSaveCall inp = false)
    (hop : isExploratoryBash inp.command inp.description = false)
    (hr : w.projectRootFound = true)
    (hc : (readState w.reminderFile).reminderCount > ESCALATION_THRESHOLD)
    (hnos : getLastSaveTs w ≤ (readState w.reminderFile).lastSaveTs) :
    (preMain inp w).1 =
      PreDecision.deny (.escalation (readState w.reminderFile).reminderCount) := by
  simp [preMain, MATCHED_TOOLS, ht, hsave, hr, Nat.not_le_of_lt hc, Nat.not_lt_of_le hnos,
    Nat.not_le.mpr hc]

/-- Claim C5 (witness): the amended theorem at the concrete operational
command `mkdir foo` in Escalated state. -/
theorem precheck_escalated_denies_all_nonsave_bash_witness :
    isSaveCall ⟨"Bash", "mkdir foo", "", "", ""⟩ = false ∧
    isExploratoryBash "mkdir foo" "" = false ∧
    (readState (ReminderFile.jsonObj (some 0) (some 3) (some 5))).reminderCount
      > ESCALATION_THRESHOLD ∧
    (preMain ⟨"Bash", "mkdir foo", "", "", ""⟩
        ⟨true, .jsonObj (some 0) (some 3) (some 5), none, some ⟨0, 0, 0⟩,
          none, some 5, none, 500000⟩).1
      = PreDecision.deny (.escalation 3) :=
  ⟨by decide, by decide, by decide,
    precheck_escalated_denies_all_nonsave_bash _ _ rfl (by decide) (by decide) rfl
      (by decide) (by decide)⟩

/-! ## Claim C6: the safelist dominates description scoring -/

/-- Claim C6: for every Shell command matching the operational safelist,
classification is Operational (`isExploratoryBash = false`) for every
possible description string — the safelist is checked before description
scoring. -/
theorem safelist_dominates_description_scoring (cmd desc : String)
    (h : matchesSafeOperational cmd = true) :
    isExploratoryBash cmd desc = false := by
  simp [isExploratoryBash, h]

/-- Claim C6 (witness): the theorem at the safelisted command `mkdir test`
with a description whose exploration score strictly exceeds its operational
score. -/
theorem safelist_dominates_description_scoring_witness :
    matchesSafeOperational "mkdir test" = true ∧
    explorationScore "search and explore to find out where the config is" >
      operationalScore "search and explore to find out where the config is" ∧
    isExploratoryBash "mkdir test" "search and explore to find out where the config is"
      = false :=
  ⟨by decide, by decide, safelist_dominates_description_scoring _ _ (by decide)⟩

/-! ## Claim C7: the periodic summary checkpoint -/

/-- Claim C7 (counterexample): when the incremented counter reaches
`SUMMARY_CHECKPOINT_CALLS = 20`, the post-check emits the blocking
checkpoint advisory but does NOT reset the counter to 0: the persisted
tracker keeps the incremented value 20 (the reset is performed by
`session-summary.js` or at session start, not by the post-check). -/
theorem checkpoint_counter_not_reset_cex :
    (postMain ⟨"Bash", "ls", "", "", ""⟩
        ⟨true, .absent, none, some ⟨0, 0, 19⟩, none, none, none, 0⟩).1
      = PostOutput.blockCheckpoint ∧
    (postMain ⟨"Bash", "ls", "", "", ""⟩
        ⟨true, .absent, none, some ⟨0, 0, 19⟩, none, none, none, 0⟩).2.trackerFile
      = some ⟨0, 0, 20⟩ ∧
    (20 : Nat) ≠ 0 := by
  decide

/-- Claim C7 (amended): the post-check increments the per-session
gated-call counter on every matched, non-self call with a resolved project
root (whatever the escalation state), and when the incremented counter
reaches `SUMMARY_CHECKPOINT_CALLS` it emits the blocking checkpoint
advisory; the counter is left at its incremented value, not reset — the
reset to 0 happens when the summary action (`session-summary.js`) or a
session start rewrites the tracker. -/
theorem postcheck_increments_counter_and_blocks_at_checkpoint
    (inp : HookInput) (w : World)
    (hm : inp.toolName ∈ MATCHED_TOOLS)
    (hself : inp.toolName = "Bash" → isSelfCall inp = false)
    (hr : w.projectRootFound = true) :
    (postMain inp w).2.trackerFile =
      some { readTaskTracker w with
             toolCallsSinceSummary := (readTaskTracker w).toolCallsSinceSummary + 1 } ∧
    ((readTaskTracker w).toolCallsSinceSummary + 1 ≥ SUMMARY_CHECKPOINT_CALLS →
      (postMain inp w).1 = PostOutput.blockCheckpoint) := by
  have hnt : inp.toolName ∉ TASK_TOOLS := by
    simp only [MATCHED_TOOLS, List.mem_cons, List.not_mem_nil, or_false] at hm
    rcases hm with hm | hm | hm | hm <;> simp [TASK_TOOLS, hm]
  have hns : ¬ (inp.toolName = "Bash" ∧ isSelfCall inp = true) := by
    rintro ⟨h1, h2⟩
    rw [hself h1] at h2
    exact Bool.false_ne_true h2
  simp only [postMain]
  rw [if_neg hnt]
  rw [if_neg (show ¬ inp.toolName ∉ MATCHED_TOOLS from fun h => h hm)]
  rw [if_neg (show ¬ w.projectRootFound = false by simp [hr])]
  rw [if_neg hns]
  by_cases hcp : (readTaskTracker w).toolCallsSinceSummary + 1 ≥ SUMMARY_CHECKPOINT_CALLS
  · rw [if_pos hcp]
    exact ⟨rfl, fun _ => rfl⟩
  · rw [if_neg hcp]
    refine ⟨?_, fun h => absurd h hcp⟩
    rw [postAfterCheckpoint_trackerFile]
    rfl

/-- Claim C7 (witness): the amended theorem at the 20th matched call. -/
theorem postcheck_increments_counter_and_blocks_at_checkpoint_witness :
    ("Bash" : String) ∈ MATCHED_TOOLS ∧
    isSelfCall ⟨"Bash", "ls", "", "", ""⟩ = false ∧
    (postMain ⟨"Bash", "ls", "", "", ""⟩
        ⟨true, .absent, none, some ⟨0, 0, 19⟩, none, none, none, 0⟩).2.trackerFile
      = some ⟨0, 0, 20⟩ ∧
    (postMain ⟨"Bash", "ls", "", "", ""⟩
        ⟨true, .absent, none, some ⟨0, 0, 19⟩, none, none, none, 0⟩).1
      = PostOutput.blockCheckpoint := by
  have h := postcheck_increments_counter_and_blocks_at_checkpoint
    ⟨"Bash", "ls", "", "", ""⟩ ⟨true, .absent, none, some ⟨0, 0, 19⟩, none, none, none, 0⟩
    (by decide) (fun _ => by decide) rfl
  exact ⟨by decide, by decide, h.1, h.2 (by decide)⟩

/-! ## Claim C8: state round-trip and legacy decoding -/

/-- Claim C8: writing any `EscState` with `writeState` and reading it back
with `readState` yields an equal value, and reading a legacy state file
containing a bare numeric timestamp `v` yields
`{ts (lastReminderAt) := v, reminderCount := 0, lastSaveTs := 0}`. -/
theorem state_roundtrip_and_legacy_decode (w : World) (s : EscState) (v : Nat) :
    readState ((writeState w s).reminderFile) = s ∧
    readState (ReminderFile.bareNum v) = ⟨v, 0, 0⟩ := by
  constructor
  · simp [writeState, stateToJson, readState]
  · rfl

/-! ## Claim C9: the task tracker invariant -/

/-- Claim C9 (counterexample): starting from the session-start reset state
`{created := 0, completed := 0}`, a single task-completed event processed by
the post-check yields `{created := 0, completed := 1}`, violating the
claimed invariant `tasksCompleted ≤ tasksCreated`. -/
theorem task_invariant_broken_by_unmatched_completion_cex :
    (postMain ⟨"TaskUpdate", "", "", "", "completed"⟩
        ⟨true, .absent, none, some ⟨0, 0, 0⟩, none, none, none, 0⟩).2.trackerFile
      = some ⟨0, 1, 0⟩ ∧
    ¬ taskInvariant ⟨0, 1, 0⟩ := by
  decide

/-- Claim C9 (amended): the invariant `tasksCompleted ≤ tasksCreated` is
preserved by task-created events unconditionally, and by task-completed and
task-deleted events provided `tasksCompleted < tasksCreated` holds
beforehand (i.e. the event matches a previously created, uncompleted task);
an unmatched completion — possible from the reset state `{0, 0}` — violates
it (counterexample above). -/
theorem task_invariant_preserved_for_matched_events
    (t : TaskTracker) (ev : TaskEvent)
    (h1 : taskInvariant t)
    (h2 : ev = .completed ∨ ev = .deleted → t.completed < t.created) :
    taskInvariant (applyTaskEvent t ev) := by
  unfold taskInvariant at h1 ⊢
  cases ev
  · simp only [applyTaskEvent]; omega
  · have h3 := h2 (Or.inl rfl); simp only [applyTaskEvent]; omega
  · have h3 := h2 (Or.inr rfl); simp only [applyTaskEvent]; omega
  · simpa [applyTaskEvent] using h1

/-- Claim C9 (witness): the amended theorem at a tracker with an open task
(`created = 2 > completed = 1`) receiving a completion event. -/
theorem task_invariant_preserved_for_matched_events_witness :
    taskInvariant ⟨2, 1, 0⟩ ∧
    (⟨2, 1, 0⟩ : TaskTracker).completed < (⟨2, 1, 0⟩ : TaskTracker).created ∧
    taskInvariant (applyTaskEvent ⟨2, 1, 0⟩ .completed) :=
  ⟨by decide, by decide,
    task_invariant_preserved_for_matched_events ⟨2, 1, 0⟩ .completed (by decide)
      (fun _ => by decide)⟩

/-! ## Claim C10: the pre-check is read-only -/

/-- Claim C10: for every input and every file-system state, the pre-check
leaves all modelled persisted state unchanged — the escalation-state file,
the consultation sentinel, the task tracker and the Knowledge-Store facts
are identical after it runs, whatever its verdict.  (The source's only
write on any pre-check path is to the debug log, which is not policy
state.) -/
theorem precheck_mutates_no_state (inp : HookInput) (w : World) :
    (preMain inp w).2 = w := by
  simp only [preMain]
  split_ifs <;> rfl
